import Mathlib

/-!
Verification development for the block-execution engine of an EVM-compatible
chain client (mainnet Ethereum plus an Optimism-style rollup variant).

The development shallowly embeds the parts of the code that the examined
properties are about:

* the hardfork resolvers `spec_by_timestamp_and_block_number`
  (crates/evm/src/spec.rs) and `spec_by_timestamp_after_bedrock`
  (crates/evm/src/op/spec_id.rs);
* the OP block executor's admission, commit and DA-footprint accounting
  (crates/op-evm/src/block/mod.rs);
* the RPC transaction adapter `TransactionRequest::try_into_tx_env`
  (crates/evm/src/rpc/transaction.rs);
* the next-block blob-excess-gas derivation of `EvmEnv::for_eth_next`
  (crates/evm/src/eth/env.rs).

Machine integers are modelled as `Nat` with explicit reductions modulo
`2 ^ 64` (or saturation at `2 ^ 64 - 1` / `2 ^ 128 - 1`) exactly where the
code uses wrapping or saturating arithmetic.  External collaborators (the
interpreter, the fastlz compressed-size estimator, the blob-parameter update
formula) enter the model as explicit function-valued inputs, mirroring their
black-box role in the source.
-/

/-! ## Machine-integer helpers -/

/-- `2 ^ 64`, the size of the `u64` domain. -/
def U64SIZE : Nat := 2 ^ 64

/-- `u64::MAX`. -/
def U64MAX : Nat := 2 ^ 64 - 1

/-- `u128::MAX`. -/
def U128MAX : Nat := 2 ^ 128 - 1

/-- `u64` subtraction as it behaves in release builds (wrapping). -/
def wrapSub64 (a b : Nat) : Nat := (a + U64SIZE - b % U64SIZE) % U64SIZE

/-- `u64::saturating_add`. -/
def satAdd64 (a b : Nat) : Nat := min (a + b) U64MAX

/-- `u64::saturating_mul`. -/
def satMul64 (a b : Nat) : Nat := min (a * b) U64MAX

/-- `U256::saturating_to::<u128>()`. -/
def satTo128 (v : Nat) : Nat := min v U128MAX

/-! ## Hardfork activation conditions (alloy-hardforks dependency model) -/

/-- A fork activation condition, as in the `alloy_hardforks::ForkCondition`
dependency: block-number gated, timestamp gated, or never active. -/
inductive ForkCondition
  | block (activation : Nat)
  | timestamp (activation : Nat)
  | never
deriving DecidableEq

/-- `ForkCondition::active_at_timestamp`: a timestamp-gated condition is
active at any timestamp at or after its activation point (inclusive). -/
def ForkCondition.activeAtTimestamp : ForkCondition → Nat → Bool
  | .timestamp t, ts => decide (t ≤ ts)
  | _, _ => false

/-- `ForkCondition::active_at_block`: a block-gated condition is active at any
block number at or after its activation point (inclusive). -/
def ForkCondition.activeAtBlock : ForkCondition → Nat → Bool
  | .block b, n => decide (b ≤ n)
  | _, _ => false

/-- The Ethereum hardforks consulted by `spec_by_timestamp_and_block_number`. -/
inductive EthFork
  | osaka | prague | cancun | shanghai | paris | london | berlin | istanbul
  | petersburg | byzantium | spuriousDragon | tangerine | homestead | frontier
deriving DecidableEq

/-- The revm `SpecId` protocol-version tags returned by the resolver. -/
inductive SpecId
  | OSAKA | PRAGUE | CANCUN | SHANGHAI | MERGE | LONDON | BERLIN | ISTANBUL
  | PETERSBURG | BYZANTIUM | SPURIOUS_DRAGON | TANGERINE | HOMESTEAD | FRONTIER
deriving DecidableEq

/-- A chain rule set: the activation condition of each Ethereum fork
(the `EthereumHardforks` trait's `ethereum_fork_activation`). -/
def EthRules : Type := EthFork → ForkCondition

/-- `is_<fork>_active_at_timestamp` of the `EthereumHardforks` trait. -/
def isEthActiveAtTimestamp (rules : EthRules) (f : EthFork) (ts : Nat) : Bool :=
  (rules f).activeAtTimestamp ts

/-- `is_<fork>_active_at_block` of the `EthereumHardforks` trait. -/
def isEthActiveAtBlock (rules : EthRules) (f : EthFork) (n : Nat) : Bool :=
  (rules f).activeAtBlock n

/-- `spec_by_timestamp_and_block_number` (crates/evm/src/spec.rs): the mainnet
hardfork resolver, an if-chain from newest to oldest fork. -/
def spec_by_timestamp_and_block_number (rules : EthRules) (ts n : Nat) : SpecId :=
  if isEthActiveAtTimestamp rules .osaka ts then .OSAKA
  else if isEthActiveAtTimestamp rules .prague ts then .PRAGUE
  else if isEthActiveAtTimestamp rules .cancun ts then .CANCUN
  else if isEthActiveAtTimestamp rules .shanghai ts then .SHANGHAI
  else if isEthActiveAtBlock rules .paris n then .MERGE
  else if isEthActiveAtBlock rules .london n then .LONDON
  else if isEthActiveAtBlock rules .berlin n then .BERLIN
  else if isEthActiveAtBlock rules .istanbul n then .ISTANBUL
  else if isEthActiveAtBlock rules .petersburg n then .PETERSBURG
  else if isEthActiveAtBlock rules .byzantium n then .BYZANTIUM
  else if isEthActiveAtBlock rules .spuriousDragon n then .SPURIOUS_DRAGON
  else if isEthActiveAtBlock rules .tangerine n then .TANGERINE
  else if isEthActiveAtBlock rules .homestead n then .HOMESTEAD
  else .FRONTIER

/-- The OP-stack hardforks consulted by `spec_by_timestamp_after_bedrock`. -/
inductive OpFork
  | interop | jovian | isthmus | holocene | granite | fjord | ecotone
  | canyon | regolith | bedrock
deriving DecidableEq

/-- The op-revm `OpSpecId` protocol-version tags. -/
inductive OpSpecId
  | INTEROP | JOVIAN | ISTHMUS | HOLOCENE | GRANITE | FJORD | ECOTONE
  | CANYON | REGOLITH | BEDROCK
deriving DecidableEq

/-- An OP chain rule set (the `OpHardforks` trait's `op_fork_activation`). -/
def OpRules : Type := OpFork → ForkCondition

/-- `is_<fork>_active_at_timestamp` of the `OpHardforks` trait. -/
def isOpActiveAtTimestamp (rules : OpRules) (f : OpFork) (ts : Nat) : Bool :=
  (rules f).activeAtTimestamp ts

/-- `spec_by_timestamp_after_bedrock` (crates/evm/src/op/spec_id.rs): the
rollup hardfork resolver, all forks timestamp-gated, newest to oldest. -/
def spec_by_timestamp_after_bedrock (rules : OpRules) (ts : Nat) : OpSpecId :=
  if isOpActiveAtTimestamp rules .interop ts then .INTEROP
  else if isOpActiveAtTimestamp rules .jovian ts then .JOVIAN
  else if isOpActiveAtTimestamp rules .isthmus ts then .ISTHMUS
  else if isOpActiveAtTimestamp rules .holocene ts then .HOLOCENE
  else if isOpActiveAtTimestamp rules .granite ts then .GRANITE
  else if isOpActiveAtTimestamp rules .fjord ts then .FJORD
  else if isOpActiveAtTimestamp rules .ecotone ts then .ECOTONE
  else if isOpActiveAtTimestamp rules .canyon ts then .CANYON
  else if isOpActiveAtTimestamp rules .regolith ts then .REGOLITH
  else .BEDROCK

/-- First-match semantics over a list of (activation check, version) pairs in
descending fork order, with a genesis fallback. -/
def firstActive {α : Type} : List (Bool × α) → α → α
  | [], dflt => dflt
  | (b, s) :: rest, dflt => if b then s else firstActive rest dflt

/-- The mainnet resolver's activation checks, newest first, paired with the
version each one selects. -/
def ethForkChecks (rules : EthRules) (ts n : Nat) : List (Bool × SpecId) :=
  [ (isEthActiveAtTimestamp rules .osaka ts, .OSAKA),
    (isEthActiveAtTimestamp rules .prague ts, .PRAGUE),
    (isEthActiveAtTimestamp rules .cancun ts, .CANCUN),
    (isEthActiveAtTimestamp rules .shanghai ts, .SHANGHAI),
    (isEthActiveAtBlock rules .paris n, .MERGE),
    (isEthActiveAtBlock rules .london n, .LONDON),
    (isEthActiveAtBlock rules .berlin n, .BERLIN),
    (isEthActiveAtBlock rules .istanbul n, .ISTANBUL),
    (isEthActiveAtBlock rules .petersburg n, .PETERSBURG),
    (isEthActiveAtBlock rules .byzantium n, .BYZANTIUM),
    (isEthActiveAtBlock rules .spuriousDragon n, .SPURIOUS_DRAGON),
    (isEthActiveAtBlock rules .tangerine n, .TANGERINE),
    (isEthActiveAtBlock rules .homestead n, .HOMESTEAD) ]

/-- The rollup resolver's activation checks, newest first. -/
def opForkChecks (rules : OpRules) (ts : Nat) : List (Bool × OpSpecId) :=
  [ (isOpActiveAtTimestamp rules .interop ts, .INTEROP),
    (isOpActiveAtTimestamp rules .jovian ts, .JOVIAN),
    (isOpActiveAtTimestamp rules .isthmus ts, .ISTHMUS),
    (isOpActiveAtTimestamp rules .holocene ts, .HOLOCENE),
    (isOpActiveAtTimestamp rules .granite ts, .GRANITE),
    (isOpActiveAtTimestamp rules .fjord ts, .FJORD),
    (isOpActiveAtTimestamp rules .ecotone ts, .ECOTONE),
    (isOpActiveAtTimestamp rules .canyon ts, .CANYON),
    (isOpActiveAtTimestamp rules .regolith ts, .REGOLITH) ]

/-- A rule set in which a single fork has the given activation condition and
every other fork is never active (as in the source's `FakeHardfork` tests). -/
def singleEthRules (f : EthFork) (c : ForkCondition) : EthRules :=
  fun g => if g = f then c else .never

/-- Single-fork rule set for the rollup resolver. -/
def singleOpRules (f : OpFork) (c : ForkCondition) : OpRules :=
  fun g => if g = f then c else .never

/-- The `SpecId` a given Ethereum fork resolves to. -/
def EthFork.spec : EthFork → SpecId
  | .osaka => .OSAKA
  | .prague => .PRAGUE
  | .cancun => .CANCUN
  | .shanghai => .SHANGHAI
  | .paris => .MERGE
  | .london => .LONDON
  | .berlin => .BERLIN
  | .istanbul => .ISTANBUL
  | .petersburg => .PETERSBURG
  | .byzantium => .BYZANTIUM
  | .spuriousDragon => .SPURIOUS_DRAGON
  | .tangerine => .TANGERINE
  | .homestead => .HOMESTEAD
  | .frontier => .FRONTIER

/-- Whether the mainnet resolver gates the fork by timestamp (post-merge). -/
def EthFork.timestampGated : EthFork → Bool
  | .osaka | .prague | .cancun | .shanghai => true
  | _ => false

/-- Whether the mainnet resolver gates the fork by block number (pre-merge);
`frontier` is the fallback and is included since the resolver returns it
whenever nothing newer is active. -/
def EthFork.blockGated : EthFork → Bool
  | .paris | .london | .berlin | .istanbul | .petersburg | .byzantium
  | .spuriousDragon | .tangerine | .homestead | .frontier => true
  | _ => false

/-- The `OpSpecId` a given OP fork resolves to. -/
def OpFork.spec : OpFork → OpSpecId
  | .interop => .INTEROP
  | .jovian => .JOVIAN
  | .isthmus => .ISTHMUS
  | .holocene => .HOLOCENE
  | .granite => .GRANITE
  | .fjord => .FJORD
  | .ecotone => .ECOTONE
  | .canyon => .CANYON
  | .regolith => .REGOLITH
  | .bedrock => .BEDROCK

/-! ## OP block executor (crates/op-evm/src/block/mod.rs) -/

/-- The interpreter's outcome for one transaction (`ResultAndState`): the
reported gas, the success flag, and an abstract identifier for the state
delta to be committed. -/
structure EvmResult where
  gasUsed : Nat
  success : Bool
  stateDelta : Nat
deriving DecidableEq

/-- A normalized OP transaction, carrying exactly the observations the
executor makes of it: its EIP-2718 type collapsed to the deposit flag
(`ty() == DEPOSIT_TRANSACTION_TYPE`), its gas limit, the optional original
enveloped wire bytes, a fresh EIP-2718 encoding, its signer, and the deposit
metadata `is_system_transaction` flag (never read by the executor). -/
structure OpTx where
  isDeposit : Bool
  gasLimit : Nat
  enveloped : Option (List Nat)
  encoded2718 : List Nat
  signer : Nat
  isSystemTransaction : Bool
deriving DecidableEq

/-- The per-block-fixed inputs of the OP executor: the block gas limit and
timestamp-resolved fork flags (`is_regolith` is precomputed in
`OpBlockExecutor::new`, the Jovian and Canyon activity are queried from the
spec at the block timestamp), the `U256` value stored in the L1 block
contract's DA-footprint-scalar slot, the external fastlz compressed-size
estimator `estimate_tx_compressed_size`, and the account-nonce view of the
backing store used for deposit receipts. -/
structure OpCfg where
  gasLimit : Nat
  isRegolith : Bool
  jovianActive : Bool
  canyonActive : Bool
  daScalarSlot : Nat
  estimate : List Nat → Nat
  nonceOf : Nat → Nat

/-- A built receipt (the executor's fallback `OpDepositReceipt` path). -/
structure OpReceipt where
  success : Bool
  cumulativeGasUsed : Nat
  depositNonce : Option Nat
  depositReceiptVersion : Option Nat
deriving DecidableEq

/-- The executor's mutable fields: the two counters, the receipt list, and
the sequence of state deltas committed to the backing store. -/
structure OpExecutorState where
  gasUsed : Nat
  daFootprintUsed : Nat
  receipts : List OpReceipt
  committed : List Nat
deriving DecidableEq

/-- The executor's state right after `OpBlockExecutor::new`. -/
def initialExecutorState : OpExecutorState :=
  { gasUsed := 0, daFootprintUsed := 0, receipts := [], committed := [] }

/-- The block-validation errors the admission checks can raise
(`BlockValidationError::TransactionGasLimitMoreThanAvailableBlockGas` and
`OpBlockExecutionError::TransactionDaFootprintAboveGasLimit`, the latter
wrapped in `BlockExecutionError::Validation`). -/
inductive OpValidationError
  | transactionGasLimitMoreThanAvailableBlockGas
      (transactionGasLimit blockAvailableGas : Nat)
  | transactionDaFootprintAboveGasLimit
      (transactionDaFootprint availableBlockDaFootprint : Nat)
deriving DecidableEq

/-- Execution errors as the claims distinguish them: block-validation errors
versus a per-transaction (recoverable) invalid-transaction error raised by
the interpreter through `BlockExecutionError::evm`. -/
inductive OpExecError
  | validation (e : OpValidationError)
  | invalidTx
deriving DecidableEq

/-- `op_revm::constants::DA_FOOTPRINT_GAS_SCALAR_OFFSET`: the scalar occupies
the first two bytes of the slot's 32-byte big-endian encoding (the source's
`prepare_jovian_db` test stores the scalar in exactly those bytes). -/
def DA_FOOTPRINT_GAS_SCALAR_OFFSET : Nat := 0

/-- Byte `i` (0 = most significant) of the 32-byte big-endian encoding of a
`U256` value. -/
def beByte32 (v i : Nat) : Nat := v / 256 ^ (31 - i) % 256

/-- `get_jovian_da_footprint_scalar`: read the slot value, take its 32-byte
big-endian form, and interpret the two bytes at the fixed offset as a
big-endian `u16`. -/
def get_jovian_da_footprint_scalar (slot : Nat) : Nat :=
  beByte32 slot DA_FOOTPRINT_GAS_SCALAR_OFFSET * 256 +
    beByte32 slot (DA_FOOTPRINT_GAS_SCALAR_OFFSET + 1)

/-- The byte string whose compressed size is estimated: the transaction's
original enveloped wire bytes when available, otherwise its fresh EIP-2718
encoding (`tx.to_tx_env().encoded_bytes()` versus `tx.tx().encoded_2718()`). -/
def daSizeEstimate (cfg : OpCfg) (tx : OpTx) : Nat :=
  match tx.enveloped with
  | some e => cfg.estimate e
  | none => cfg.estimate tx.encoded2718

/-- `jovian_da_footprint_estimation`: the compressed-size estimate,
saturating-divided by 1,000,000 and saturating-multiplied by the DA-footprint
gas scalar read from the L1 block contract. -/
def jovian_da_footprint_estimation (cfg : OpCfg) (tx : OpTx) : Nat :=
  satMul64 (daSizeEstimate cfg tx / 1000000)
    (get_jovian_da_footprint_scalar cfg.daScalarSlot)

/-- Lift the interpreter's own outcome into the executor's error type:
`evm.transact` failures become per-transaction invalid-transaction errors. -/
def mapTransact (tr : Except Unit EvmResult) : Except OpExecError EvmResult :=
  match tr with
  | .ok r => .ok r
  | .error _ => .error .invalidTx

/-- `execute_transaction_without_commit`: the gas-limit admission check (with
the pre-Regolith deposit exemption), then, at or after Jovian and for
non-deposit transactions only, the DA-footprint admission check, then the
interpreter call.  The executor's own fields are untouched on every path;
the pair returns them alongside the outcome. -/
def execute_transaction_without_commit (cfg : OpCfg) (st : OpExecutorState)
    (tx : OpTx) (transact : Except Unit EvmResult) :
    OpExecutorState × Except OpExecError EvmResult :=
  let blockAvailableGas := wrapSub64 cfg.gasLimit st.gasUsed
  if decide (blockAvailableGas < tx.gasLimit) && (cfg.isRegolith || !tx.isDeposit) then
    (st, .error (.validation (.transactionGasLimitMoreThanAvailableBlockGas
      tx.gasLimit blockAvailableGas)))
  else if cfg.jovianActive && !tx.isDeposit then
    let daFootprintAvailable := wrapSub64 cfg.gasLimit st.daFootprintUsed
    let txDaFootprint := jovian_da_footprint_estimation cfg tx
    if decide (daFootprintAvailable < txDaFootprint) then
      (st, .error (.validation (.transactionDaFootprintAboveGasLimit
        txDaFootprint daFootprintAvailable)))
    else (st, mapTransact transact)
  else (st, mapTransact transact)

/-- `commit_transaction`: read the depositor nonce (post-Regolith deposits
only), advance `gas_used` by the reported gas, advance `da_footprint_used`
by the estimated footprint (Jovian, non-deposit only, saturating), build the
receipt, commit the state delta, and return this transaction's own gas. -/
def commit_transaction (cfg : OpCfg) (st : OpExecutorState) (tx : OpTx)
    (output : EvmResult) : OpExecutorState × Nat :=
  let depositNonce :=
    if cfg.isRegolith && tx.isDeposit then some (cfg.nonceOf tx.signer) else none
  let gasUsed := output.gasUsed
  let gasUsedAfter := (st.gasUsed + gasUsed) % U64SIZE
  let daAfter :=
    if cfg.jovianActive && !tx.isDeposit then
      satAdd64 st.daFootprintUsed (jovian_da_footprint_estimation cfg tx)
    else st.daFootprintUsed
  let receipt : OpReceipt :=
    { success := output.success
      cumulativeGasUsed := gasUsedAfter
      depositNonce := depositNonce
      depositReceiptVersion :=
        if tx.isDeposit && cfg.canyonActive then some 1 else none }
  ({ gasUsed := gasUsedAfter
     daFootprintUsed := daAfter
     receipts := st.receipts ++ [receipt]
     committed := st.committed ++ [output.stateDelta] }, gasUsed)

/-- One `execute_transaction` round: admission and interpreter execution
followed, on success, by the commit. -/
def execStep (cfg : OpCfg) (st : OpExecutorState) (p : OpTx × EvmResult) :
    Except OpExecError OpExecutorState :=
  match (execute_transaction_without_commit cfg st p.1 (.ok p.2)).2 with
  | .error e => .error e
  | .ok res => .ok (commit_transaction cfg st p.1 res).1

/-- Execute and commit a sequence of transactions (each paired with the
interpreter outcome the black-box interpreter reports for it), stopping at
the first error. -/
def runTxs (cfg : OpCfg) :
    OpExecutorState → List (OpTx × EvmResult) → Except OpExecError OpExecutorState
  | st, [] => .ok st
  | st, p :: rest =>
    match execStep cfg st p with
    | .error e => .error e
    | .ok st2 => runTxs cfg st2 rest

/-- Whether an execution error is the gas-limit block-validation error. -/
def OpExecError.isGasLimitErr : OpExecError → Bool
  | .validation (.transactionGasLimitMoreThanAvailableBlockGas _ _) => true
  | _ => false

/-- Whether an execution error is the DA-footprint block-validation error. -/
def OpExecError.isDaFootprintErr : OpExecError → Bool
  | .validation (.transactionDaFootprintAboveGasLimit _ _) => true
  | _ => false

/-- Whether an execution outcome is the gas-limit block-validation error. -/
def resultGasLimitErr (r : Except OpExecError EvmResult) : Bool :=
  match r with
  | .error e => e.isGasLimitErr
  | .ok _ => false

/-- Whether an execution outcome is the DA-footprint block-validation error. -/
def resultDaFootprintErr (r : Except OpExecError EvmResult) : Bool :=
  match r with
  | .error e => e.isDaFootprintErr
  | .ok _ => false

/-- The DA-footprint formula exactly as the specification words it (for
comparison with the code's formula): the ceiling of the compressed-size
estimate divided by 1,000,000, times the scalar. -/
def specCeilDaFootprint (size scalar : Nat) : Nat :=
  (size + 999999) / 1000000 * scalar

/-! ## RPC transaction adapter (crates/evm/src/rpc/transaction.rs) -/

/-- `alloy_primitives::TxKind`: a call to an address or a contract creation. -/
inductive TxKind
  | create
  | call (addr : Nat)
deriving DecidableEq

/-- The alloy `TransactionInput` pair of aliased byte fields. -/
structure TransactionInput where
  input : Option (List Nat)
  data : Option (List Nat)
deriving DecidableEq

/-- The alloy `TransactionInputError`: both aliases set to different values. -/
inductive TransactionInputError
  | sameFieldsSet
deriving DecidableEq

/-- The alloy `TransactionInput::try_into_unique_input` dependency: fail when
both aliases are set and differ, otherwise return whichever is present. -/
def TransactionInput.try_into_unique_input :
    TransactionInput → Except TransactionInputError (Option (List Nat))
  | ⟨some i, some d⟩ => if i = d then .ok (some i) else .error .sameFieldsSet
  | ⟨some i, none⟩ => .ok (some i)
  | ⟨none, some d⟩ => .ok (some d)
  | ⟨none, none⟩ => .ok none

/-- The RPC `TransactionRequest` with every field the adapter consumes.
Addresses, hashes, access-list and authorization-list entries are abstracted
to `Nat` identifiers; byte strings to `List Nat`. -/
structure TransactionRequest where
  from_ : Option Nat
  to_ : Option TxKind
  gas_price : Option Nat
  max_fee_per_gas : Option Nat
  max_priority_fee_per_gas : Option Nat
  gas : Option Nat
  value : Option Nat
  input : TransactionInput
  nonce : Option Nat
  chain_id : Option Nat
  blob_versioned_hashes : Option (List Nat)
  max_fee_per_blob_gas : Option Nat
  access_list : Option (List Nat)
  authorization_list : Option (List Nat)
deriving DecidableEq

/-- The alloy `minimal_tx_type` dependency: the lowest EIP-2718 type whose
feature set covers the present fields. -/
def TransactionRequest.minimal_tx_type (req : TransactionRequest) : Nat :=
  if req.authorization_list.isSome then 4
  else if req.blob_versioned_hashes.isSome || req.max_fee_per_blob_gas.isSome then 3
  else if req.max_fee_per_gas.isSome || req.max_priority_fee_per_gas.isSome then 2
  else if req.access_list.isSome then 1
  else 0

/-- `CallFeesError`: fee-validation failures raised by the fee helper. -/
inductive CallFeesError
  | blobTransactionMissingBlobHashes
  | tipAboveFeeCap
deriving DecidableEq

/-- The reconciled fee fields produced by the fee helper. -/
structure CallFees where
  max_priority_fee_per_gas : Option Nat
  gas_price : Nat
  max_fee_per_blob_gas : Option Nat
deriving DecidableEq

/-- Modelled from the spec: the fee-reconciliation helper
`CallFees::ensure_fees` is exported by `rpc/mod.rs` from a `fees` module that
is not present in the sources.  Modelled faithfully from the specification's
fee-precedence sentence: an explicit legacy gas price is used directly as
both price and priority fee; explicit fee-market fields require
`max_fee_per_gas >= max_priority_fee_per_gas`, else fail; absent both, the
fees default to the block's current base fee with zero priority fee; the
same defaulting policy applies to the blob fee against the blob base fee. -/
def CallFees.ensure_fees (call_gas_price call_max_fee call_priority_fee : Option Nat)
    (block_base_fee : Nat) (_blob_versioned_hashes : Option (List Nat))
    (max_fee_per_blob_gas : Option Nat) (block_blob_fee : Option Nat) :
    Except CallFeesError CallFees :=
  let blob_fee :=
    match max_fee_per_blob_gas with
    | some b => some b
    | none => block_blob_fee
  match call_gas_price, call_max_fee, call_priority_fee with
  | some gp, _, _ =>
    .ok { max_priority_fee_per_gas := some gp, gas_price := gp,
          max_fee_per_blob_gas := blob_fee }
  | none, none, none =>
    .ok { max_priority_fee_per_gas := some 0, gas_price := block_base_fee,
          max_fee_per_blob_gas := blob_fee }
  | none, mf, mp =>
    let max_fee := mf.getD block_base_fee
    let prio := mp.getD 0
    if max_fee < prio then .error .tipAboveFeeCap
    else
      .ok { max_priority_fee_per_gas := some prio, gas_price := max_fee,
            max_fee_per_blob_gas := blob_fee }

/-- `EthTxEnvError`: the adapter's error taxonomy (fee errors and aliased
input-field conflicts). -/
inductive EthTxEnvError
  | callFees (e : CallFeesError)
  | inputError (e : TransactionInputError)
deriving DecidableEq

/-- The revm `TxEnv` executable transaction environment. -/
structure TxEnv where
  tx_type : Nat
  gas_limit : Nat
  nonce : Nat
  caller : Nat
  gas_price : Nat
  gas_priority_fee : Option Nat
  kind : TxKind
  value : Nat
  data : List Nat
  chain_id : Option Nat
  access_list : List Nat
  blob_hashes : List Nat
  max_fee_per_blob_gas : Nat
  authorization_list : List Nat
deriving DecidableEq

/-- The slice of the execution environment the adapter consults: the
configured chain id and the block's gas limit, base fee and blob gas price. -/
structure EvmEnvModel where
  chain_id : Nat
  block_gas_limit : Nat
  basefee : Nat
  blob_gasprice : Option Nat
deriving DecidableEq

/-- `TransactionRequest::try_into_tx_env`: validate the blob-hash list,
reconcile the fees, resolve the aliased input fields, and default the
remaining fields against the environment. -/
def TransactionRequest.try_into_tx_env (req : TransactionRequest)
    (env : EvmEnvModel) : Except EthTxEnvError TxEnv :=
  if (match req.blob_versioned_hashes with
      | some hashes => hashes.isEmpty
      | none => false) then
    .error (.callFees .blobTransactionMissingBlobHashes)
  else
    match CallFees.ensure_fees req.gas_price req.max_fee_per_gas
        req.max_priority_fee_per_gas env.basefee req.blob_versioned_hashes
        req.max_fee_per_blob_gas env.blob_gasprice with
    | .error e => .error (.callFees e)
    | .ok fees =>
      match req.input.try_into_unique_input with
      | .error e => .error (.inputError e)
      | .ok data =>
        .ok { tx_type := req.minimal_tx_type
              gas_limit := req.gas.getD env.block_gas_limit
              nonce := req.nonce.getD 0
              caller := req.from_.getD 0
              gas_price := satTo128 fees.gas_price
              gas_priority_fee := fees.max_priority_fee_per_gas.map satTo128
              kind := req.to_.getD .create
              value := req.value.getD 0
              data := data.getD []
              chain_id := some (req.chain_id.getD env.chain_id)
              access_list := req.access_list.getD []
              blob_hashes := req.blob_versioned_hashes.getD []
              max_fee_per_blob_gas := (fees.max_fee_per_blob_gas.map satTo128).getD 0
              authorization_list := req.authorization_list.getD [] }

/-! ## Next-block blob excess gas (crates/evm/src/eth/env.rs) -/

/-- The alloy `BlobParams` dependency, abstracted to the two functions the
environment builder invokes on it: the EIP-4844/7844 next-block excess-gas
update formula (`next_block_excess_blob_gas_osaka`, taking parent excess blob
gas, parent blob gas used, and base fee) and the blob-fee curve
(`calc_blob_fee`). -/
structure BlobParams where
  nextBlockExcessBlobGasOsaka : Nat → Nat → Nat → Nat
  calcBlobFee : Nat → Nat

/-- The revm `BlobExcessGasAndPrice` pair. -/
structure BlobExcessGasAndPrice where
  excess_blob_gas : Nat
  blob_gasprice : Nat

/-- The parent-header fields the next-block derivation reads. -/
structure ParentHeaderModel where
  number : Nat
  difficulty : Nat
  excess_blob_gas : Option Nat
  blob_gas_used : Option Nat
deriving DecidableEq

/-- The `blob_excess_gas_and_price` derivation of `EvmEnv::for_eth_next`:
apply the update formula when blob parameters are configured and both parent
fields are present; otherwise fall back to zero exactly when the resolved
spec is Cancun (the fork's first activation) and to absent for any other
spec; finally price the resulting excess gas.  `cancun_params` stands for
the external `BlobParams::cancun()` default used for pricing when no blob
parameters were supplied. -/
def for_eth_next_blob_excess (cancun_params : BlobParams)
    (blob_params : Option BlobParams) (spec : SpecId)
    (excess_blob_gas blob_gas_used : Option Nat) (base_fee_per_gas : Nat) :
    Option BlobExcessGasAndPrice :=
  let updated : Option Nat :=
    match blob_params, excess_blob_gas, blob_gas_used with
    | some bp, some e, some u => some (bp.nextBlockExcessBlobGasOsaka e u base_fee_per_gas)
    | _, _, _ => none
  let withFallback : Option Nat :=
    match updated with
    | some v => some v
    | none => if spec = SpecId.CANCUN then some 0 else none
  withFallback.map fun excess =>
    { excess_blob_gas := excess
      blob_gasprice := (blob_params.getD cancun_params).calcBlobFee excess }

/-- `EvmEnvInput::from_parent_header` restricted to the blob derivation: the
parent's `excess_blob_gas` and `blob_gas_used` header fields and the
caller-supplied next-block base fee feed the derivation. -/
def from_parent_header_blob_excess (cancun_params : BlobParams)
    (blob_params : Option BlobParams) (spec : SpecId)
    (parent : ParentHeaderModel) (base_fee_per_gas : Nat) :
    Option BlobExcessGasAndPrice :=
  for_eth_next_blob_excess cancun_params blob_params spec
    parent.excess_blob_gas parent.blob_gas_used base_fee_per_gas

/-! ## Concrete inputs used by closed counterexamples and witnesses -/

/-- A Jovian configuration whose estimator reports 1,500,000 scaled bytes and
whose DA-scalar slot holds 2 in its leading big-endian `u16`. -/
def c1Cfg : OpCfg :=
  { gasLimit := 1000000, isRegolith := true, jovianActive := true,
    canyonActive := true, daScalarSlot := 2 * 2 ^ 240,
    estimate := fun _ => 1500000, nonceOf := fun _ => 0 }

/-- A non-deposit transaction without original wire bytes. -/
def c1Tx : OpTx :=
  { isDeposit := false, gasLimit := 10, enveloped := none,
    encoded2718 := [1, 2, 3], signer := 0, isSystemTransaction := false }

/-- A pre-Regolith, pre-Jovian configuration with block gas limit 100. -/
def c2Cfg : OpCfg :=
  { gasLimit := 100, isRegolith := false, jovianActive := false,
    canyonActive := false, daScalarSlot := 0, estimate := fun _ => 0,
    nonceOf := fun _ => 0 }

/-- A system deposit transaction whose gas limit exceeds the whole block. -/
def c2Tx : OpTx :=
  { isDeposit := true, gasLimit := 200, enveloped := none, encoded2718 := [],
    signer := 0, isSystemTransaction := true }

/-- An interpreter outcome reporting 150 gas. -/
def c2Res : EvmResult := { gasUsed := 150, success := true, stateDelta := 7 }

/-- The executor state after committing `c2Tx` with outcome `c2Res`. -/
def c2Final : OpExecutorState :=
  { gasUsed := 150, daFootprintUsed := 0,
    receipts := [{ success := true, cumulativeGasUsed := 150,
                   depositNonce := none, depositReceiptVersion := none }],
    committed := [7] }

/-- A Jovian configuration whose estimator reports 200,000,000 scaled bytes
and whose DA-scalar slot holds 1, against a block gas limit of 100. -/
def c4Cfg : OpCfg :=
  { gasLimit := 100, isRegolith := true, jovianActive := true,
    canyonActive := true, daScalarSlot := 2 ^ 240,
    estimate := fun _ => 200000000, nonceOf := fun _ => 0 }

/-- A small non-deposit transaction carrying its original wire bytes. -/
def c4Tx : OpTx :=
  { isDeposit := false, gasLimit := 50, enveloped := some [9],
    encoded2718 := [9], signer := 0, isSystemTransaction := false }

/-- A request with every optional field omitted. -/
def emptyRequest : TransactionRequest :=
  { from_ := none, to_ := none, gas_price := none, max_fee_per_gas := none,
    max_priority_fee_per_gas := none, gas := none, value := none,
    input := { input := none, data := none }, nonce := none, chain_id := none,
    blob_versioned_hashes := none, max_fee_per_blob_gas := none,
    access_list := none, authorization_list := none }

/-- A request whose fee-market fields violate the cap ordering. -/
def badFeesRequest : TransactionRequest :=
  { emptyRequest with max_fee_per_gas := some 5, max_priority_fee_per_gas := some 9 }

/-- A request carrying a present-but-empty blob-hash list. -/
def emptyBlobRequest : TransactionRequest :=
  { emptyRequest with blob_versioned_hashes := some [] }

/-- A request whose aliased input fields are both set and differ. -/
def conflictInputRequest : TransactionRequest :=
  { emptyRequest with input := { input := some [1], data := some [2] } }

/-- A concrete adapter environment. -/
def envEx : EvmEnvModel :=
  { chain_id := 10, block_gas_limit := 30000000, basefee := 7,
    blob_gasprice := some 1 }

/-- The transaction environment `emptyRequest` adapts to against `envEx`. -/
def c6DefaultTx : TxEnv :=
  { tx_type := 0, gas_limit := 30000000, nonce := 0, caller := 0,
    gas_price := 7, gas_priority_fee := some 0, kind := .create, value := 0,
    data := [], chain_id := some 10, access_list := [], blob_hashes := [],
    max_fee_per_blob_gas := 1, authorization_list := [] }

/-- Concrete blob parameters with an injective update formula. -/
def c9Params : BlobParams :=
  { nextBlockExcessBlobGasOsaka := fun e u f => e + u + f,
    calcBlobFee := fun x => x + 1 }

/-- A parent header carrying both blob fields. -/
def c9Parent : ParentHeaderModel :=
  { number := 5, difficulty := 0, excess_blob_gas := some 3,
    blob_gas_used := some 4 }

/-! ## Helper lemmas -/

theorem U64SIZE_eq : U64SIZE = 18446744073709551616 := by norm_num [U64SIZE]

theorem U64MAX_eq : U64MAX = 18446744073709551615 := by norm_num [U64MAX]

theorem wrapSub64_of_le (a b : Nat) (ha : a < U64SIZE) (hb : b ≤ a) :
    wrapSub64 a b = a - b := by
  rw [U64SIZE_eq] at ha
  simp only [wrapSub64, U64SIZE_eq]
  omega

theorem beByte32_lt (v i : Nat) : beByte32 v i < 256 :=
  Nat.mod_lt _ (by norm_num)

theorem get_jovian_da_footprint_scalar_lt (slot : Nat) :
    get_jovian_da_footprint_scalar slot < 65536 := by
  have h0 := beByte32_lt slot DA_FOOTPRINT_GAS_SCALAR_OFFSET
  have h1 := beByte32_lt slot (DA_FOOTPRINT_GAS_SCALAR_OFFSET + 1)
  simp only [get_jovian_da_footprint_scalar]
  omega

theorem satMul64_small (size scalar : Nat) (hsize : size < U64SIZE)
    (hs : scalar < 65536) :
    satMul64 (size / 1000000) scalar = size / 1000000 * scalar := by
  have hsize' : size ≤ 18446744073709551615 := by rw [U64SIZE_eq] at hsize; omega
  have h1 : size / 1000000 ≤ 18446744073709 := by
    calc size / 1000000 ≤ 18446744073709551615 / 1000000 :=
          Nat.div_le_div_right hsize'
      _ = 18446744073709 := by norm_num
  have h2 : size / 1000000 * scalar ≤ 18446744073709 * 65535 :=
    Nat.mul_le_mul h1 (by omega)
  simp only [satMul64, U64MAX_eq]
  omega

/-! ## Claim C1 -/

/-- Claim C1 (counterexample): the estimated DA footprint is not the ceiling
formula `ceil(compressed_size_estimate / 1_000_000) * scalar` that the claim
states.  With a compressed-size estimate of 1,500,000 and a scalar of 2, the
code computes `floor(1_500_000 / 1_000_000) * 2 = 2`, while the claimed
ceiling formula gives `2 * 2 = 4`. -/
theorem c1_counterexample :
    jovian_da_footprint_estimation c1Cfg c1Tx ≠
      specCeilDaFootprint (daSizeEstimate c1Cfg c1Tx)
        (get_jovian_da_footprint_scalar c1Cfg.daScalarSlot) := by
  decide

/-- Claim C1 (amended): for every non-deposit transaction considered at or
after the Jovian fork, the estimated DA footprint used for admission and
commit equals `floor(compressed_size_estimate / 1_000_000) * scalar` (the
code divides first, with flooring `saturating_div`, then multiplies), where
the compressed-size estimate is computed from the transaction's original
wire bytes when available and otherwise from a fresh EIP-2718 encoding, and
the scalar is the `u16` read big-endian from the fixed DA-footprint offset
of the L1 block contract slot.  The saturating multiplication never
saturates because the estimate is a `u64` and the scalar a `u16`. -/
theorem c1_da_footprint_formula (cfg : OpCfg) (tx : OpTx)
    (hsize : daSizeEstimate cfg tx < U64SIZE) :
    jovian_da_footprint_estimation cfg tx =
      daSizeEstimate cfg tx / 1000000 *
        get_jovian_da_footprint_scalar cfg.daScalarSlot ∧
    (∀ e, tx.enveloped = some e → daSizeEstimate cfg tx = cfg.estimate e) ∧
    (tx.enveloped = none → daSizeEstimate cfg tx = cfg.estimate tx.encoded2718) := by
  refine ⟨?_, ?_, ?_⟩
  · simp only [jovian_da_footprint_estimation]
    exact satMul64_small _ _ hsize (get_jovian_da_footprint_scalar_lt _)
  · intro e he
    simp [daSizeEstimate, he]
  · intro he
    simp [daSizeEstimate, he]

/-- Witness for the amended C1 at a concrete configuration. -/
theorem c1_da_footprint_formula_witness :
    daSizeEstimate c1Cfg c1Tx < U64SIZE ∧
    jovian_da_footprint_estimation c1Cfg c1Tx =
      daSizeEstimate c1Cfg c1Tx / 1000000 *
        get_jovian_da_footprint_scalar c1Cfg.daScalarSlot :=
  ⟨by decide, (c1_da_footprint_formula c1Cfg c1Tx (by decide)).1⟩

/-! ## Claim C2 -/

theorem execStep_ok_gas (cfg : OpCfg) (st : OpExecutorState) (p : OpTx × EvmResult)
    (st2 : OpExecutorState) (hreg : (cfg.isRegolith || !p.1.isDeposit) = true)
    (hlim : cfg.gasLimit < U64SIZE) (hst : st.gasUsed ≤ cfg.gasLimit)
    (hg : p.2.gasUsed ≤ p.1.gasLimit)
    (hok : execStep cfg st p = .ok st2) :
    st2.gasUsed = st.gasUsed + p.2.gasUsed ∧ st2.gasUsed ≤ cfg.gasLimit := by
  have havail := wrapSub64_of_le cfg.gasLimit st.gasUsed hlim hst
  simp only [execStep, execute_transaction_without_commit, havail, hreg,
    Bool.and_true] at hok
  by_cases hc : decide (cfg.gasLimit - st.gasUsed < p.1.gasLimit) = true
  · simp [hc] at hok
  · have hc' : ¬ (cfg.gasLimit - st.gasUsed < p.1.gasLimit) := by
      intro hlt
      exact hc (by simpa using hlt)
    have hle : p.1.gasLimit ≤ cfg.gasLimit - st.gasUsed := by omega
    have hsum : st.gasUsed + p.2.gasUsed ≤ cfg.gasLimit := by omega
    have hmod : (st.gasUsed + p.2.gasUsed) % U64SIZE = st.gasUsed + p.2.gasUsed :=
      Nat.mod_eq_of_lt (lt_of_le_of_lt hsum hlim)
    simp only [hc, Bool.false_eq_true, if_false] at hok
    by_cases hj : (cfg.jovianActive && !p.1.isDeposit) = true
    · simp only [hj, if_true] at hok
      by_cases hda : decide (wrapSub64 cfg.gasLimit st.daFootprintUsed <
          jovian_da_footprint_estimation cfg p.1) = true
      · simp [hda] at hok
      · simp only [hda, Bool.false_eq_true, if_false, mapTransact] at hok
        injection hok with hok
        subst hok
        simp [commit_transaction, hmod, hsum]
    · simp only [hj, Bool.false_eq_true, if_false, mapTransact] at hok
      injection hok with hok
      subst hok
      simp [commit_transaction, hmod, hsum]

theorem runTxs_gas (cfg : OpCfg) (txs : List (OpTx × EvmResult)) :
    ∀ st st2 : OpExecutorState, cfg.gasLimit < U64SIZE →
    (∀ p ∈ txs, p.2.gasUsed ≤ p.1.gasLimit) →
    (∀ p ∈ txs, (cfg.isRegolith || !p.1.isDeposit) = true) →
    st.gasUsed ≤ cfg.gasLimit →
    runTxs cfg st txs = .ok st2 →
    st2.gasUsed = st.gasUsed + (txs.map fun p => p.2.gasUsed).sum ∧
      st2.gasUsed ≤ cfg.gasLimit := by
  induction txs with
  | nil =>
    intro st st2 _ _ _ hst hrun
    simp only [runTxs] at hrun
    injection hrun with hrun
    subst hrun
    simpa using hst
  | cons p rest ih =>
    intro st st2 hlim hg hreg hst hrun
    simp only [runTxs] at hrun
    cases hstep : execStep cfg st p with
    | error e => rw [hstep] at hrun; exact absurd hrun (by simp)
    | ok stMid =>
      rw [hstep] at hrun
      obtain ⟨h1, h2⟩ := execStep_ok_gas cfg st p stMid
        (hreg p (List.mem_cons_self _ _)) hlim hst
        (hg p (List.mem_cons_self _ _)) hstep
      obtain ⟨h3, h4⟩ := ih stMid st2 hlim
        (fun q hq => hg q (List.mem_cons_of_mem _ hq))
        (fun q hq => hreg q (List.mem_cons_of_mem _ hq)) h2 hrun
      refine ⟨?_, h4⟩
      rw [h3, h1]
      simp [List.map_cons, List.sum_cons]
      omega

/-- Claim C2 (amended): committing transaction `i` advances `gas_used` by
exactly transaction `i`'s reported gas (so `gas_used` is monotone and, over a
committed sequence, equals the sum of the individually reported gas values);
and `gas_used` never exceeds the block gas limit at commit time provided
every reported gas is at most its transaction's gas limit and the sequence
contains no pre-Regolith deposit transaction — a pre-Regolith deposit
bypasses the admission gas check and can push `gas_used` past the block gas
limit. -/
theorem c2_gas_accounting :
    (∀ (cfg : OpCfg) (st : OpExecutorState) (tx : OpTx) (output : EvmResult),
        st.gasUsed + output.gasUsed < U64SIZE →
        (commit_transaction cfg st tx output).1.gasUsed =
          st.gasUsed + output.gasUsed ∧
        st.gasUsed ≤ (commit_transaction cfg st tx output).1.gasUsed) ∧
    (∀ (cfg : OpCfg) (txs : List (OpTx × EvmResult)) (st2 : OpExecutorState),
        cfg.gasLimit < U64SIZE →
        (∀ p ∈ txs, p.2.gasUsed ≤ p.1.gasLimit) →
        (cfg.isRegolith = true ∨ ∀ p ∈ txs, p.1.isDeposit = false) →
        runTxs cfg initialExecutorState txs = .ok st2 →
        st2.gasUsed = (txs.map fun p => p.2.gasUsed).sum ∧
          st2.gasUsed ≤ cfg.gasLimit) := by
  constructor
  · intro cfg st tx output hlt
    have hmod : (st.gasUsed + output.gasUsed) % U64SIZE =
        st.gasUsed + output.gasUsed := Nat.mod_eq_of_lt hlt
    constructor
    · simp [commit_transaction, hmod]
    · simp [commit_transaction, hmod]
  · intro cfg txs st2 hlim hg hreg hrun
    have hreg' : ∀ p ∈ txs, (cfg.isRegolith || !p.1.isDeposit) = true := by
      intro q hq
      cases hreg with
      | inl h => simp [h]
      | inr h => simp [h q hq]
    have := runTxs_gas cfg txs initialExecutorState st2 hlim hg hreg'
      (by simp [initialExecutorState]) hrun
    simpa [initialExecutorState] using this

/-- Witness for the amended C2: committing a 150-gas outcome onto a fresh
executor advances `gas_used` to exactly 150. -/
theorem c2_gas_accounting_witness :
    initialExecutorState.gasUsed + c2Res.gasUsed < U64SIZE ∧
    (commit_transaction c2Cfg initialExecutorState c2Tx c2Res).1.gasUsed =
      initialExecutorState.gasUsed + c2Res.gasUsed :=
  ⟨by decide,
    (c2_gas_accounting.1 c2Cfg initialExecutorState c2Tx c2Res (by decide)).1⟩

/-- Claim C2 (counterexample): a pre-Regolith deposit with gas limit 200 and
reported gas 150 is admitted against a block gas limit of 100 and commits,
leaving `gas_used = 150 > 100`: `gas_used` can exceed the block gas limit. -/
theorem c2_counterexample :
    ¬ (∀ st2 : OpExecutorState,
        runTxs c2Cfg initialExecutorState [(c2Tx, c2Res)] = .ok st2 →
        st2.gasUsed ≤ c2Cfg.gasLimit) := by
  intro h
  exact absurd (h c2Final (by rfl)) (by decide)

/-! ## Claim C3 -/

/-- Claim C3: a deposit transaction executed pre-Regolith (including one with
`is_system_transaction = true`, which the admission check never reads)
bypasses the block-gas-limit admission check and is admitted even if its own
gas limit exceeds the block's remaining gas — the call reduces straight to
the interpreter outcome; and the admission raises the gas-limit
block-validation error exactly when the transaction is a non-deposit or
Regolith is active, and `tx.gas_limit + gas_used > block.gas_limit`. -/
theorem c3_gas_admission (cfg : OpCfg) (st : OpExecutorState) (tx : OpTx)
    (transact : Except Unit EvmResult)
    (hlim : cfg.gasLimit < U64SIZE) (hst : st.gasUsed ≤ cfg.gasLimit) :
    (cfg.isRegolith = false → tx.isDeposit = true →
      execute_transaction_without_commit cfg st tx transact =
        (st, mapTransact transact)) ∧
    (resultGasLimitErr (execute_transaction_without_commit cfg st tx transact).2 =
      ((cfg.isRegolith || !tx.isDeposit) &&
        decide (cfg.gasLimit < tx.gasLimit + st.gasUsed))) := by
  have havail := wrapSub64_of_le cfg.gasLimit st.gasUsed hlim hst
  have harith : decide (cfg.gasLimit - st.gasUsed < tx.gasLimit) =
      decide (cfg.gasLimit < tx.gasLimit + st.gasUsed) := by
    rw [decide_eq_decide]
    omega
  constructor
  · intro hR hD
    simp [execute_transaction_without_commit, hR, hD]
  · simp only [execute_transaction_without_commit, havail, harith]
    by_cases hb : (cfg.isRegolith || !tx.isDeposit) = true
    · by_cases hd : decide (cfg.gasLimit < tx.gasLimit + st.gasUsed) = true
      · simp [hb, hd, resultGasLimitErr, OpExecError.isGasLimitErr]
      · rw [Bool.not_eq_true] at hd
        simp only [hb, hd, Bool.and_false, Bool.false_eq_true, if_false]
        by_cases hj : (cfg.jovianActive && !tx.isDeposit) = true
        · simp only [hj, if_true]
          by_cases hda : decide (wrapSub64 cfg.gasLimit st.daFootprintUsed <
              jovian_da_footprint_estimation cfg tx) = true
          · simp [hda, resultGasLimitErr, OpExecError.isGasLimitErr]
          · rw [Bool.not_eq_true] at hda
            cases transact <;>
              simp [hda, mapTransact, resultGasLimitErr, OpExecError.isGasLimitErr]
        · rw [Bool.not_eq_true] at hj
          cases transact <;>
            simp [hj, mapTransact, resultGasLimitErr, OpExecError.isGasLimitErr]
    · rw [Bool.not_eq_true] at hb
      simp only [hb, Bool.and_false, Bool.false_eq_true, if_false]
      have hbD : tx.isDeposit = true := by
        cases hR : cfg.isRegolith <;> cases hD : tx.isDeposit <;> simp_all
      simp only [hbD, Bool.not_true, Bool.and_false, Bool.false_eq_true, if_false]
      cases transact <;>
        simp [mapTransact, resultGasLimitErr, OpExecError.isGasLimitErr]

/-- Witness for C3: the pre-Regolith system deposit `c2Tx`, whose gas limit
200 exceeds the whole block gas limit 100, is admitted. -/
theorem c3_gas_admission_witness :
    c2Cfg.gasLimit < U64SIZE ∧ initialExecutorState.gasUsed ≤ c2Cfg.gasLimit ∧
    execute_transaction_without_commit c2Cfg initialExecutorState c2Tx
      (.ok c2Res) = (initialExecutorState, mapTransact (.ok c2Res)) :=
  ⟨by decide, by decide,
    (c3_gas_admission c2Cfg initialExecutorState c2Tx (.ok c2Res)
      (by decide) (by decide)).1 rfl rfl⟩

/-! ## Claim C4 -/

/-- Claim C4: at or after Jovian, a non-deposit transaction whose estimated
DA footprint exceeds the remaining DA budget is rejected by
`execute_transaction_without_commit` with the DA-footprint block-validation
error (a `validation` error, not the per-transaction `invalidTx` error), and
the executor's receipts, `gas_used`, `da_footprint_used` and committed state
are returned unchanged. -/
theorem c4_da_rejection (cfg : OpCfg) (st : OpExecutorState) (tx : OpTx)
    (transact : Except Unit EvmResult)
    (hj : cfg.jovianActive = true) (hd : tx.isDeposit = false)
    (hlim : cfg.gasLimit < U64SIZE) (hst : st.gasUsed ≤ cfg.gasLimit)
    (hda : st.daFootprintUsed ≤ cfg.gasLimit)
    (hgas : tx.gasLimit + st.gasUsed ≤ cfg.gasLimit)
    (hover : cfg.gasLimit - st.daFootprintUsed <
      jovian_da_footprint_estimation cfg tx) :
    execute_transaction_without_commit cfg st tx transact =
      (st, .error (.validation (.transactionDaFootprintAboveGasLimit
        (jovian_da_footprint_estimation cfg tx)
        (cfg.gasLimit - st.daFootprintUsed)))) := by
  have h1 := wrapSub64_of_le cfg.gasLimit st.gasUsed hlim hst
  have h2 := wrapSub64_of_le cfg.gasLimit st.daFootprintUsed hlim hda
  have hga : decide (cfg.gasLimit - st.gasUsed < tx.gasLimit) = false := by
    simp only [decide_eq_false_iff_not]
    omega
  simp [execute_transaction_without_commit, h1, h2, hj, hd, hga, hover]

/-- Witness for C4: a 200-unit footprint against a remaining budget of 100
yields exactly the DA block-validation error with the state unchanged. -/
theorem c4_da_rejection_witness :
    c4Cfg.jovianActive = true ∧ c4Tx.isDeposit = false ∧
    c4Cfg.gasLimit - initialExecutorState.daFootprintUsed <
      jovian_da_footprint_estimation c4Cfg c4Tx ∧
    execute_transaction_without_commit c4Cfg initialExecutorState c4Tx
      (.ok c2Res) =
      (initialExecutorState, .error (.validation
        (.transactionDaFootprintAboveGasLimit
          (jovian_da_footprint_estimation c4Cfg c4Tx)
          (c4Cfg.gasLimit - initialExecutorState.daFootprintUsed)))) :=
  ⟨rfl, rfl, by decide,
    c4_da_rejection c4Cfg initialExecutorState c4Tx (.ok c2Res) rfl rfl
      (by decide) (by decide) (by decide) (by decide) (by decide)⟩

/-! ## Claim C10 -/

/-- Claim C10: committing a deposit transaction leaves `da_footprint_used`
unchanged and admission never raises the DA-footprint error for a deposit,
even when Jovian is active; only non-deposit transactions under Jovian ever
advance `da_footprint_used`, and the advance is the saturating addition of
the estimated footprint, so the counter never wraps past `u64::MAX`. -/
theorem c10_deposit_da_frame :
    (∀ (cfg : OpCfg) (st : OpExecutorState) (tx : OpTx) (output : EvmResult),
        tx.isDeposit = true →
        (commit_transaction cfg st tx output).1.daFootprintUsed =
          st.daFootprintUsed) ∧
    (∀ (cfg : OpCfg) (st : OpExecutorState) (tx : OpTx)
        (transact : Except Unit EvmResult), tx.isDeposit = true →
        resultDaFootprintErr
          (execute_transaction_without_commit cfg st tx transact).2 = false) ∧
    (∀ (cfg : OpCfg) (st : OpExecutorState) (tx : OpTx) (output : EvmResult),
        (commit_transaction cfg st tx output).1.daFootprintUsed ≠
          st.daFootprintUsed →
        tx.isDeposit = false ∧ cfg.jovianActive = true) ∧
    (∀ (cfg : OpCfg) (st : OpExecutorState) (tx : OpTx) (output : EvmResult),
        cfg.jovianActive = true → tx.isDeposit = false →
        (commit_transaction cfg st tx output).1.daFootprintUsed =
          satAdd64 st.daFootprintUsed (jovian_da_footprint_estimation cfg tx) ∧
        (commit_transaction cfg st tx output).1.daFootprintUsed ≤ U64MAX) := by
  refine ⟨?_, ?_, ?_, ?_⟩
  · intro cfg st tx output hdep
    simp [commit_transaction, hdep]
  · intro cfg st tx transact hdep
    simp only [execute_transaction_without_commit]
    by_cases hc : (decide (wrapSub64 cfg.gasLimit st.gasUsed < tx.gasLimit) &&
        (cfg.isRegolith || !tx.isDeposit)) = true
    · simp [hc, resultDaFootprintErr, OpExecError.isDaFootprintErr]
    · rw [Bool.not_eq_true] at hc
      simp only [hc, Bool.false_eq_true, if_false, hdep, Bool.not_true,
        Bool.and_false]
      cases transact <;> split <;> rfl
  · intro cfg st tx output hne
    by_cases hj : (cfg.jovianActive && !tx.isDeposit) = true
    · constructor
      · cases hd : tx.isDeposit <;> simp_all
      · cases hja : cfg.jovianActive <;> simp_all
    · rw [Bool.not_eq_true] at hj
      exact absurd (by simp [commit_transaction, hj]) hne
  · intro cfg st tx output hj hd
    constructor
    · simp [commit_transaction, hj, hd]
    · simp only [commit_transaction, hj, hd]
      simp [satAdd64]

/-- Witness for C10: committing the deposit `c2Tx` leaves the DA counter at
its initial value. -/
theorem c10_deposit_da_frame_witness :
    c2Tx.isDeposit = true ∧
    (commit_transaction c2Cfg initialExecutorState c2Tx c2Res).1.daFootprintUsed =
      initialExecutorState.daFootprintUsed :=
  ⟨rfl, c10_deposit_da_frame.1 c2Cfg initialExecutorState c2Tx c2Res rfl⟩

/-! ## Claim C5 -/

theorem firstActive_all_false {α : Type} (l : List (Bool × α)) (dflt : α)
    (h : ∀ p ∈ l, p.1 = false) : firstActive l dflt = dflt := by
  induction l with
  | nil => rfl
  | cons p rest ih =>
    obtain ⟨b, s⟩ := p
    have hb : b = false := h (b, s) (List.mem_cons_self _ _)
    simp only [firstActive, hb, Bool.false_eq_true, if_false]
    exact ih (fun q hq => h q (List.mem_cons_of_mem _ hq))

/-- Claim C5: both hardfork resolvers realise first-match semantics over
their activation checks taken in strict newest-to-oldest order, falling back
to the genesis version when no check holds; activation predicates are
inclusive at the boundary, so resolving exactly at a fork's activation
timestamp (or block) returns that fork; and at parameters where no fork is
active the resolvers return the genesis versions (FRONTIER, BEDROCK). -/
theorem c5_resolver :
    (∀ (rules : EthRules) (ts n : Nat),
        spec_by_timestamp_and_block_number rules ts n =
          firstActive (ethForkChecks rules ts n) .FRONTIER) ∧
    (∀ (rules : OpRules) (ts : Nat),
        spec_by_timestamp_after_bedrock rules ts =
          firstActive (opForkChecks rules ts) .BEDROCK) ∧
    (∀ (f : EthFork) (t n : Nat), f.timestampGated = true →
        spec_by_timestamp_and_block_number
          (singleEthRules f (.timestamp t)) t n = f.spec) ∧
    (∀ (f : EthFork) (b ts : Nat), f.blockGated = true →
        spec_by_timestamp_and_block_number
          (singleEthRules f (.block b)) ts b = f.spec) ∧
    (∀ (g : OpFork) (t : Nat),
        spec_by_timestamp_after_bedrock
          (singleOpRules g (.timestamp t)) t = g.spec) ∧
    (∀ (rules : EthRules) (ts n : Nat),
        (∀ p ∈ ethForkChecks rules ts n, p.1 = false) →
        spec_by_timestamp_and_block_number rules ts n = .FRONTIER) ∧
    (∀ (rules : OpRules) (ts : Nat),
        (∀ p ∈ opForkChecks rules ts, p.1 = false) →
        spec_by_timestamp_after_bedrock rules ts = .BEDROCK) := by
  refine ⟨?_, ?_, ?_, ?_, ?_, ?_, ?_⟩
  · intro rules ts n
    rfl
  · intro rules ts
    rfl
  · intro f t n hf
    cases f <;>
      simp_all [spec_by_timestamp_and_block_number, singleEthRules,
        isEthActiveAtTimestamp, isEthActiveAtBlock, EthFork.timestampGated,
        ForkCondition.activeAtTimestamp, ForkCondition.activeAtBlock,
        EthFork.spec]
  · intro f b ts hf
    cases f <;>
      simp_all [spec_by_timestamp_and_block_number, singleEthRules,
        isEthActiveAtTimestamp, isEthActiveAtBlock, EthFork.blockGated,
        ForkCondition.activeAtTimestamp, ForkCondition.activeAtBlock,
        EthFork.spec]
  · intro g t
    cases g <;>
      simp_all [spec_by_timestamp_after_bedrock, singleOpRules,
        isOpActiveAtTimestamp, ForkCondition.activeAtTimestamp, OpFork.spec]
  · intro rules ts n h
    rw [show spec_by_timestamp_and_block_number rules ts n =
      firstActive (ethForkChecks rules ts n) .FRONTIER from rfl]
    exact firstActive_all_false _ _ h
  · intro rules ts h
    rw [show spec_by_timestamp_after_bedrock rules ts =
      firstActive (opForkChecks rules ts) .BEDROCK from rfl]
    exact firstActive_all_false _ _ h

/-- Witness for C5: with Cancun alone activated at timestamp 7, resolving at
exactly timestamp 7 returns CANCUN. -/
theorem c5_resolver_witness :
    EthFork.cancun.timestampGated = true ∧
    spec_by_timestamp_and_block_number
      (singleEthRules .cancun (.timestamp 7)) 7 0 = EthFork.cancun.spec :=
  ⟨rfl, c5_resolver.2.2.1 .cancun 7 0 rfl⟩

/-! ## Claim C6 -/

theorem satTo128_mono (a b : Nat) (h : a ≤ b) : satTo128 a ≤ satTo128 b := by
  simp only [satTo128]
  omega

theorem ensure_fees_priority_le (gp mf mp : Option Nat) (base : Nat)
    (bh : Option (List Nat)) (bfg bbf : Option Nat) (fees : CallFees) (q : Nat)
    (h : CallFees.ensure_fees gp mf mp base bh bfg bbf = .ok fees)
    (hq : fees.max_priority_fee_per_gas = some q) : q ≤ fees.gas_price := by
  unfold CallFees.ensure_fees at h
  cases gp with
  | some g =>
    simp only [Except.ok.injEq] at h
    subst h
    simp only [Option.some.injEq] at hq
    subst hq
    exact le_refl _
  | none =>
    cases mf with
    | none =>
      cases mp with
      | none =>
        simp only [Except.ok.injEq] at h
        subst h
        simp only [Option.some.injEq] at hq
        omega
      | some b =>
        simp only [Option.getD_some, Option.getD_none] at h
        split at h
        · exact absurd h (by simp)
        · rename_i hnot
          simp only [Except.ok.injEq] at h
          subst h
          simp only [Option.some.injEq] at hq
          subst hq
          show b ≤ base
          omega
    | some a =>
      simp only [Option.getD_some] at h
      split at h
      · exact absurd h (by simp)
      · rename_i hnot
        simp only [Except.ok.injEq] at h
        subst h
        simp only [Option.some.injEq] at hq
        subst hq
        show mp.getD 0 ≤ a
        omega

/-- Claim C6: every successfully adapted transaction environment satisfies
`max_fee_per_gas >= gas_priority_fee`; a request whose explicit fee-market
fields violate `max_fee_per_gas >= max_priority_fee_per_gas` yields an
adaptation error rather than silently clamped values; and when both the
legacy gas price and the fee-market fields are absent, the fees default to
the block's current base fee with zero priority fee. -/
theorem c6_fee_reconciliation :
    (∀ (req : TransactionRequest) (env : EvmEnvModel) (tx : TxEnv) (p : Nat),
        req.try_into_tx_env env = .ok tx → tx.gas_priority_fee = some p →
        p ≤ tx.gas_price) ∧
    (∀ (req : TransactionRequest) (env : EvmEnvModel) (mf mp : Nat),
        req.gas_price = none → req.max_fee_per_gas = some mf →
        req.max_priority_fee_per_gas = some mp → mf < mp →
        ∃ e, req.try_into_tx_env env = .error e) ∧
    (∀ (req : TransactionRequest) (env : EvmEnvModel) (tx : TxEnv),
        req.gas_price = none → req.max_fee_per_gas = none →
        req.max_priority_fee_per_gas = none → env.basefee ≤ U128MAX →
        req.try_into_tx_env env = .ok tx →
        tx.gas_price = env.basefee ∧ tx.gas_priority_fee = some 0) := by
  refine ⟨?_, ?_, ?_⟩
  · intro req env tx p h hp
    unfold TransactionRequest.try_into_tx_env at h
    split at h
    · exact absurd h (by simp)
    · split at h
      · exact absurd h (by simp)
      · rename_i fees hfees
        split at h
        · exact absurd h (by simp)
        · rename_i data hdata
          simp only [Except.ok.injEq] at h
          subst h
          simp only [Option.map_eq_some'] at hp
          obtain ⟨q, hq, hpq⟩ := hp
          subst hpq
          exact satTo128_mono _ _
            (ensure_fees_priority_le _ _ _ _ _ _ _ _ q hfees hq)
  · intro req env mf mp hgp hmf hmp hlt
    unfold TransactionRequest.try_into_tx_env
    by_cases hb : (match req.blob_versioned_hashes with
        | some hashes => hashes.isEmpty
        | none => false) = true
    · exact ⟨_, by rw [if_pos hb]⟩
    · have hfe : CallFees.ensure_fees req.gas_price req.max_fee_per_gas
          req.max_priority_fee_per_gas env.basefee req.blob_versioned_hashes
          req.max_fee_per_blob_gas env.blob_gasprice = .error .tipAboveFeeCap := by
        rw [hgp, hmf, hmp]
        simp [CallFees.ensure_fees, hlt]
      exact ⟨_, by rw [if_neg hb, hfe]⟩
  · intro req env tx hgp hmf hmp hbase h
    unfold TransactionRequest.try_into_tx_env at h
    have hfe : CallFees.ensure_fees req.gas_price req.max_fee_per_gas
        req.max_priority_fee_per_gas env.basefee req.blob_versioned_hashes
        req.max_fee_per_blob_gas env.blob_gasprice =
        .ok { max_priority_fee_per_gas := some 0, gas_price := env.basefee,
              max_fee_per_blob_gas :=
                match req.max_fee_per_blob_gas with
                | some b => some b
                | none => env.blob_gasprice } := by
      rw [hgp, hmf, hmp]
      rfl
    split at h
    · exact absurd h (by simp)
    · rw [hfe] at h
      cases hinput : req.input.try_into_unique_input with
      | error e =>
        simp only [hinput] at h
        exact absurd h (by simp)
      | ok data =>
        simp only [hinput, Except.ok.injEq] at h
        subst h
        constructor
        · show satTo128 env.basefee = env.basefee
          simp only [satTo128]
          omega
        · show Option.map satTo128 (some 0) = some 0
          have h0 : satTo128 0 = 0 := by
            simp only [satTo128]
            omega
          simp [h0]

/-- Witness for C6: the all-absent request adapts against `envEx` (base fee
7) to gas price 7 with priority fee zero. -/
theorem c6_fee_reconciliation_witness :
    emptyRequest.try_into_tx_env envEx = .ok c6DefaultTx ∧
    c6DefaultTx.gas_price = envEx.basefee ∧
    c6DefaultTx.gas_priority_fee = some 0 := by
  refine ⟨by rfl, ?_, ?_⟩
  · exact (c6_fee_reconciliation.2.2 emptyRequest envEx c6DefaultTx rfl rfl rfl
      (by decide) (by rfl)).1
  · exact (c6_fee_reconciliation.2.2 emptyRequest envEx c6DefaultTx rfl rfl rfl
      (by decide) (by rfl)).2

/-! ## Claim C7 -/

theorem try_into_unique_input_conflict (ti : TransactionInput) (i d : List Nat)
    (hi : ti.input = some i) (hd : ti.data = some d) (hne : i ≠ d) :
    ti.try_into_unique_input = .error .sameFieldsSet := by
  obtain ⟨a, b⟩ := ti
  have ha : a = some i := hi
  have hb : b = some d := hd
  subst ha
  subst hb
  simp [TransactionInput.try_into_unique_input, hne]

/-- Claim C7: adapting a request that carries a present-but-empty
blob-versioned-hash list fails with the missing-blob-hashes fee error (the
very first check of the adapter, before any defaulting), and adapting a
request whose two aliased input fields are both set to different values
fails with an error, whatever the remaining fields default to. -/
theorem c7_input_validation :
    (∀ (req : TransactionRequest) (env : EvmEnvModel),
        req.blob_versioned_hashes = some [] →
        req.try_into_tx_env env =
          .error (.callFees .blobTransactionMissingBlobHashes)) ∧
    (∀ (req : TransactionRequest) (env : EvmEnvModel) (i d : List Nat),
        req.input.input = some i → req.input.data = some d → i ≠ d →
        ∃ e, req.try_into_tx_env env = .error e) := by
  constructor
  · intro req env h
    unfold TransactionRequest.try_into_tx_env
    rw [if_pos (by rw [h]; rfl)]
  · intro req env i d hi hd hne
    unfold TransactionRequest.try_into_tx_env
    by_cases hb : (match req.blob_versioned_hashes with
        | some hashes => hashes.isEmpty
        | none => false) = true
    · exact ⟨_, by rw [if_pos hb]⟩
    · have hin : req.input.try_into_unique_input = .error .sameFieldsSet :=
        try_into_unique_input_conflict req.input i d hi hd hne
      cases hfe : CallFees.ensure_fees req.gas_price req.max_fee_per_gas
          req.max_priority_fee_per_gas env.basefee req.blob_versioned_hashes
          req.max_fee_per_blob_gas env.blob_gasprice with
      | error e => exact ⟨_, by rw [if_neg hb]⟩
      | ok fees => exact ⟨_, by rw [if_neg hb, hin]⟩

/-- Witness for C7: the concrete empty-blob-list request is rejected with
the missing-blob-hashes error. -/
theorem c7_input_validation_witness :
    emptyBlobRequest.blob_versioned_hashes = some [] ∧
    emptyBlobRequest.try_into_tx_env envEx =
      .error (.callFees .blobTransactionMissingBlobHashes) :=
  ⟨rfl, c7_input_validation.1 emptyBlobRequest envEx rfl⟩

/-! ## Claim C8 -/

/-- Claim C8: under successful adaptation, an omitted gas limit defaults to
the environment's block gas limit, an omitted chain id to the configured
chain id, an omitted caller to the zero address, and an omitted nonce to
zero. -/
theorem c8_defaults (req : TransactionRequest) (env : EvmEnvModel) (tx : TxEnv)
    (h : req.try_into_tx_env env = .ok tx) :
    (req.gas = none → tx.gas_limit = env.block_gas_limit) ∧
    (req.chain_id = none → tx.chain_id = some env.chain_id) ∧
    (req.from_ = none → tx.caller = 0) ∧
    (req.nonce = none → tx.nonce = 0) := by
  unfold TransactionRequest.try_into_tx_env at h
  split at h
  · exact absurd h (by simp)
  · split at h
    · exact absurd h (by simp)
    · rename_i fees hfees
      split at h
      · exact absurd h (by simp)
      · rename_i data hdata
        simp only [Except.ok.injEq] at h
        subst h
        refine ⟨?_, ?_, ?_, ?_⟩
        · intro hg
          show req.gas.getD env.block_gas_limit = env.block_gas_limit
          rw [hg]
          rfl
        · intro hc
          show some (req.chain_id.getD env.chain_id) = some env.chain_id
          rw [hc]
          rfl
        · intro hf
          show req.from_.getD 0 = 0
          rw [hf]
          rfl
        · intro hn
          show req.nonce.getD 0 = 0
          rw [hn]
          rfl

/-- Witness for C8: the all-absent request picks up the block gas limit,
chain id, zero caller and zero nonce from `envEx`. -/
theorem c8_defaults_witness :
    emptyRequest.try_into_tx_env envEx = .ok c6DefaultTx ∧
    c6DefaultTx.gas_limit = envEx.block_gas_limit ∧
    c6DefaultTx.chain_id = some envEx.chain_id ∧
    c6DefaultTx.caller = 0 ∧ c6DefaultTx.nonce = 0 := by
  have h := c8_defaults emptyRequest envEx c6DefaultTx (by rfl)
  exact ⟨by rfl, h.1 rfl, h.2.1 rfl, h.2.2.1 rfl, h.2.2.2 rfl⟩

/-! ## Claim C9 -/

/-- Claim C9: building the next-block environment derives the blob
excess-gas via the EIP-4844/7844 update formula from the parent's
excess-blob-gas, blob-gas-used and base fee whenever blob parameters are
configured and both parent fields are present; otherwise it is zero exactly
when the resolved spec is Cancun (the fork's first activation) and absent
for any other spec; and the parent-header path feeds exactly the parent's
two header fields and the caller-supplied base fee into this derivation. -/
theorem c9_blob_excess (cancun_params : BlobParams)
    (blob_params : Option BlobParams) (spec : SpecId)
    (eo uo : Option Nat) (fee : Nat) :
    (∀ bp e u, blob_params = some bp → eo = some e → uo = some u →
      for_eth_next_blob_excess cancun_params blob_params spec eo uo fee =
        some { excess_blob_gas := bp.nextBlockExcessBlobGasOsaka e u fee,
               blob_gasprice :=
                 bp.calcBlobFee (bp.nextBlockExcessBlobGasOsaka e u fee) }) ∧
    ((blob_params = none ∨ eo = none ∨ uo = none) →
      (spec = .CANCUN →
        for_eth_next_blob_excess cancun_params blob_params spec eo uo fee =
          some { excess_blob_gas := 0,
                 blob_gasprice :=
                   (blob_params.getD cancun_params).calcBlobFee 0 }) ∧
      (spec ≠ .CANCUN →
        for_eth_next_blob_excess cancun_params blob_params spec eo uo fee =
          none)) ∧
    (∀ (parent : ParentHeaderModel) (bf : Nat),
      from_parent_header_blob_excess cancun_params blob_params spec parent bf =
        for_eth_next_blob_excess cancun_params blob_params spec
          parent.excess_blob_gas parent.blob_gas_used bf) := by
  refine ⟨?_, ?_, ?_⟩
  · intro bp e u h1 h2 h3
    subst h1
    subst h2
    subst h3
    rfl
  · intro hcase
    constructor
    · intro hs
      subst hs
      rcases hcase with h | h | h
      · subst h
        simp [for_eth_next_blob_excess]
      · subst h
        cases blob_params <;> simp [for_eth_next_blob_excess]
      · subst h
        cases blob_params <;> cases eo <;> simp [for_eth_next_blob_excess]
    · intro hs
      rcases hcase with h | h | h
      · subst h
        simp [for_eth_next_blob_excess, hs]
      · subst h
        cases blob_params <;> simp [for_eth_next_blob_excess, hs]
      · subst h
        cases blob_params <;> cases eo <;> simp [for_eth_next_blob_excess, hs]
  · intro parent bf
    rfl

/-- Witness for C9: with blob parameters configured and both parent fields
present, the formula output (3 + 4 + 5 = 12, priced at 13) is returned. -/
theorem c9_blob_excess_witness :
    for_eth_next_blob_excess c9Params (some c9Params) SpecId.PRAGUE
      c9Parent.excess_blob_gas c9Parent.blob_gas_used 5 =
      some { excess_blob_gas :=
               c9Params.nextBlockExcessBlobGasOsaka 3 4 5,
             blob_gasprice :=
               c9Params.calcBlobFee
                 (c9Params.nextBlockExcessBlobGasOsaka 3 4 5) } :=
  (c9_blob_excess c9Params (some c9Params) SpecId.PRAGUE
    c9Parent.excess_blob_gas c9Parent.blob_gas_used 5).1 c9Params 3 4
    rfl rfl rfl
